import Mathlib

/-!
Shallow embedding of the resilient request orchestration layer of LOOP_APP:
the error classifier, backoff calculator and retry engine of
src/services/geminiServiceCore.ts, the HTTP response handler and the
next-inquiry operation of the same file, and the research loop of
src/App.tsx (handleStartResearch).

JavaScript numbers are modelled as rationals, JSON payloads as an inductive
value type, thrown JavaScript values as an error type with an extra
undefined element, and the nondeterminism of Math.random and of the network
as explicit function arguments (a random draw per attempt, an outcome per
invocation).
-/

namespace LoopApp

/-- JSON values as produced by response.json(). -/
inductive Json where
  | null
  | bool (b : Bool)
  | num (q : ℚ)
  | str (s : String)
  | arr (elems : List Json)
  | obj (fields : List (String × Json))

/-- JavaScript property access data[key] on a parsed JSON value: the first
field with the given name of an object, undefined (none) otherwise. -/
def Json.getField : Json → String → Option Json
  | .obj fields, key => (fields.find? (fun p => p.1 == key)).map (fun p => p.2)
  | _, _ => none

/-- JavaScript falsiness of a JSON value: null, false, 0 and the empty
string are falsy, everything else is truthy. -/
def Json.falsy : Json → Bool
  | .null => true
  | .bool b => !b
  | .num q => q == 0
  | .str s => s == ""
  | .arr _ => false
  | .obj _ => false

/-- JavaScript falsiness of an optional JSON value, where none models
undefined (an absent field). -/
def jsFalsyOpt : Option Json → Bool
  | none => true
  | some v => v.falsy

/-- Thrown JavaScript values relevant to the service layer: TypeError
(network failures thrown by fetch), Error with a message and the optional
statusCode property that handleResponse attaches, and any other thrown
value. -/
inductive JsError where
  | typeError (message : String)
  | error (message : String) (statusCode : Option Nat)
  | other
deriving DecidableEq

/-- Leading-segment test on character lists, auxiliary to strIncludes. -/
def leadMatch : List Char → List Char → Bool
  | [], _ => true
  | _ :: _, [] => false
  | a :: as, b :: bs => a == b && leadMatch as bs

/-- Substring occurrence test on character lists, auxiliary to strIncludes. -/
def hasSub (needle : List Char) : List Char → Bool
  | [] => needle.isEmpty
  | hay@(_ :: tl) => leadMatch needle hay || hasSub needle tl

/-- JavaScript String.prototype.includes: substring containment. -/
def strIncludes (s needle : String) : Bool :=
  hasSub needle.toList s.toList

/-- Error classifier, from src/services/geminiServiceCore.ts lines 32 to 42:
a TypeError is retryable, an Error whose message contains the substring
status is retryable, everything else is terminal. -/
def isRetryableError : JsError → Bool
  | .typeError _ => true
  | .error message _ => strIncludes message "status"
  | .other => false

/-- An HTTP response as seen by handleResponse: the ok flag, the numeric
status, and the parsed JSON body, where none models a body that fails to
parse as JSON (response.json() rejecting). -/
structure Response where
  ok : Bool
  status : Nat
  body : Option Json

/-- Response handler, from src/services/geminiServiceCore.ts lines 102 to
116: a body that fails to parse is replaced by the empty object; on a
non-ok response an Error is thrown whose message is the error field of the
body when that field is a string and a fixed text naming the status
otherwise, and whose statusCode property is the status of the response. -/
def handleResponse (response : Response) : Except JsError Json :=
  let data := response.body.getD (Json.obj [])
  if response.ok then
    .ok data
  else
    let message :=
      match data.getField "error" with
      | some (Json.str s) => s
      | _ => "The research service returned an error (" ++ toString response.status ++ ")."
    .error (JsError.error message (some response.status))

/-- Retry configuration, from src/services/geminiServiceCore.ts lines 11 to
16. The attempt count is an integer because nothing in the source
constrains it; delays and the multiplier are rationals. -/
structure RetryConfig where
  maxAttempts : Int
  initialDelayMs : ℚ
  maxDelayMs : ℚ
  backoffMultiplier : ℚ

/-- Default retry configuration, from src/services/geminiServiceCore.ts
lines 22 to 27. -/
def DEFAULT_RETRY_CONFIG : RetryConfig :=
  { maxAttempts := 3, initialDelayMs := 500, maxDelayMs := 5000, backoffMultiplier := 2 }

/-- Pre-jitter backoff base of calculateBackoffDelay: the exponential delay
capped at maxDelayMs (src/services/geminiServiceCore.ts lines 53 to 54). -/
def cappedDelay (attempt : Nat) (config : RetryConfig) : ℚ :=
  min (config.initialDelayMs * config.backoffMultiplier ^ attempt) config.maxDelayMs

/-- Backoff calculator, from src/services/geminiServiceCore.ts lines 52 to
58, with the Math.random() draw u passed explicitly: symmetric ten percent
jitter around the capped exponential delay, floored at zero. -/
def calculateBackoffDelay (attempt : Nat) (config : RetryConfig) (u : ℚ) : ℚ :=
  let capped := cappedDelay attempt config
  let jitter := capped * (1 / 10) * (u * 2 - 1)
  max 0 (capped + jitter)

/-- Observable events of one withRetry run: invocations of the wrapped
operation, notifications of the onRetry observer recording the argument
list actually passed (the source passes the attempt number and the error;
the delay argument a three-parameter observer would read is undefined,
modelled as none), and sleeps. -/
inductive REvent where
  | invoke (attempt : Nat)
  | notify (attemptNumber : Nat) (error : JsError) (delayArg : Option ℚ)
  | sleep (delayMs : ℚ)

/-- Result of a withRetry run: the value returned or the value thrown
(none models throwing undefined), together with the event trace. -/
structure RetryRun (T : Type) where
  result : Except (Option JsError) T
  events : List REvent

/-- Loop body of withRetry, from src/services/geminiServiceCore.ts lines 74
to 94. The fuel argument counts the remaining loop iterations (the loop
runs while attempt is less than maxAttempts); fn gives the outcome of each
invocation and u the Math.random() draw of each attempt. On failure the
loop breaks on the last attempt (the error becomes lastError and is
thrown), rethrows a terminal error at once, and otherwise notifies the
observer and sleeps for the computed backoff delay before the next
attempt. -/
def withRetryGo {T : Type} (fn : Nat → Except JsError T) (config : RetryConfig)
    (u : Nat → ℚ) : Nat → Nat → Option JsError → RetryRun T
  | _, 0, lastError => ⟨.error lastError, []⟩
  | attempt, fuel + 1, _ =>
    match fn attempt with
    | .ok v => ⟨.ok v, [.invoke attempt]⟩
    | .error e =>
      if (attempt : Int) = config.maxAttempts - 1 then
        ⟨.error (some e), [.invoke attempt]⟩
      else if !isRetryableError e then
        ⟨.error (some e), [.invoke attempt]⟩
      else
        let rest := withRetryGo fn config u (attempt + 1) fuel (some e)
        ⟨rest.result,
          .invoke attempt ::
          .notify (attempt + 1) e none ::
          .sleep (calculateBackoffDelay attempt config (u attempt)) ::
          rest.events⟩

/-- Retry engine, from src/services/geminiServiceCore.ts lines 67 to 97:
runs the loop from attempt 0 with lastError initially undefined; when the
loop finishes without returning, the (possibly undefined) lastError is
thrown. -/
def withRetry {T : Type} (fn : Nat → Except JsError T) (config : RetryConfig)
    (u : Nat → ℚ) : RetryRun T :=
  withRetryGo fn config u 0 config.maxAttempts.toNat none

/-- Number of invocations of the wrapped operation recorded in a trace. -/
def countInvokes : List REvent → Nat
  | [] => 0
  | .invoke _ :: rest => countInvokes rest + 1
  | _ :: rest => countInvokes rest

/-- The error thrown by findNextInquiry when the payload carries no usable
next subject (src/services/geminiServiceCore.ts line 198). -/
def nextInquiryMissingError : JsError :=
  .error "Next inquiry was not provided by the research service." none

/-- Next-inquiry operation, from src/services/geminiServiceCore.ts lines
186 to 202: the fetch of the next-inquiry endpoint (whose outcome per
attempt is fetchOutcome) piped through handleResponse, wrapped in
withRetry; a falsy nextSubject field of the resulting payload is converted
into a thrown error, otherwise the field value is returned. -/
def findNextInquiry (fetchOutcome : Nat → Except JsError Response)
    (config : RetryConfig) (u : Nat → ℚ) : Except (Option JsError) Json :=
  match (withRetry (fun i => (fetchOutcome i).bind handleResponse) config u).result with
  | .error err => .error err
  | .ok data =>
    match data.getField "nextSubject" with
    | none => .error (some nextInquiryMissingError)
    | some v => if v.falsy then .error (some nextInquiryMissingError) else .ok v

/-- A research source, from src/types.ts: an optional web record of uri and
title. -/
structure Source where
  web : Option (String × String)

/-- Payload of the research operation, from src/services/geminiServiceCore.ts
lines 3 to 6. -/
structure DeepResearchResponse where
  summary : String
  sources : List Source

/-- A completed research step, from src/types.ts. The subject and the next
subject are JSON values because the loop stores whatever value the service
layer produced. -/
structure ResearchStep where
  id : Nat
  subject : Json
  summary : String
  sources : List Source
  nextSubject : Option Json

/-- Outcome of one handleStartResearch run: the accumulated steps and the
thrown value caught by the surrounding catch block, if any (the catch
derives a display message from it; that formatting is UI concern). -/
structure AppRun where
  researchSteps : List ResearchStep
  error : Option (Option JsError)

/-- Loop body of handleStartResearch, from src/App.tsx lines 25 to 50. The
fuel argument counts the remaining iterations (the loop runs while i is at
most loops). Each iteration performs the research operation (a failure
escapes to the catch block), then, unless this is the last requested step,
the next-inquiry operation (a failure likewise escapes to the catch block,
discarding the current step), appends the completed step, and either
continues with the truthy next subject or breaks. -/
def appLoop (research : Json → Except (Option JsError) DeepResearchResponse)
    (next : String → Except (Option JsError) Json) (loops : Int) :
    Nat → Nat → Json → List ResearchStep → AppRun
  | _, 0, _, steps => ⟨steps, none⟩
  | i, fuel + 1, currentSubject, steps =>
    match research currentSubject with
    | .error e => ⟨steps, some e⟩
    | .ok result =>
      if (i : Int) < loops then
        match next result.summary with
        | .error e => ⟨steps, some e⟩
        | .ok ns =>
          let newStep : ResearchStep :=
            ⟨i, currentSubject, result.summary, result.sources, some ns⟩
          if ns.falsy then
            ⟨steps ++ [newStep], none⟩
          else
            appLoop research next loops (i + 1) fuel ns (steps ++ [newStep])
      else
        let newStep : ResearchStep :=
          ⟨i, currentSubject, result.summary, result.sources, none⟩
        ⟨steps ++ [newStep], none⟩

/-- Loop controller, from src/App.tsx lines 16 to 59 (handleStartResearch):
runs the research loop from step 1 with the given starting subject. -/
def handleStartResearch (research : Json → Except (Option JsError) DeepResearchResponse)
    (next : String → Except (Option JsError) Json)
    (subject : String) (loops : Int) : AppRun :=
  appLoop research next loops 1 loops.toNat (.str subject) []

/-- A successful result of the retry loop is the value of some invocation of
the wrapped operation. -/
theorem withRetryGo_ok {T : Type} (fn : Nat → Except JsError T) (config : RetryConfig)
    (u : Nat → ℚ) :
    ∀ (fuel attempt : Nat) (lastError : Option JsError) (v : T),
      (withRetryGo fn config u attempt fuel lastError).result = .ok v →
      ∃ i, fn i = .ok v := by
  intro fuel
  induction fuel with
  | zero =>
    intro attempt lastError v h
    simp [withRetryGo] at h
  | succ f ih =>
    intro attempt lastError v h
    rw [withRetryGo] at h
    cases hfn : fn attempt with
    | ok w =>
      rw [hfn] at h
      simp at h
      exact ⟨attempt, by rw [hfn, h]⟩
    | error e =>
      rw [hfn] at h
      by_cases h1 : (attempt : Int) = config.maxAttempts - 1
      · simp [h1] at h
      · cases hre : isRetryableError e with
        | false => simp [h1, hre] at h
        | true =>
          simp [h1, hre] at h
          exact ih (attempt + 1) (some e) v h

/-- A successful handleResponse returns the parsed body, with a parse
failure replaced by the empty object. -/
theorem handleResponse_ok_shape (r : Response) (data : Json)
    (h : handleResponse r = .ok data) : data = r.body.getD (Json.obj []) := by
  cases hok : r.ok with
  | false => simp [handleResponse, hok] at h
  | true =>
    simp [handleResponse, hok] at h
    exact h.symm

/-- C9: handleResponse throws exactly when the ok flag is false; the thrown
Error carries a statusCode equal to the status of the response, and its
message is the error field of the body when that field is a string and the
fixed text naming the status otherwise; a body that fails to parse as JSON
is treated as an empty object. -/
theorem handleResponse_spec (r : Response) :
    (r.ok = true → handleResponse r = .ok (r.body.getD (Json.obj []))) ∧
    (r.ok = false →
      ∃ msg, handleResponse r = .error (.error msg (some r.status)) ∧
        (∀ s, (r.body.getD (Json.obj [])).getField "error" = some (Json.str s) → msg = s) ∧
        ((∀ s, (r.body.getD (Json.obj [])).getField "error" ≠ some (Json.str s)) →
          msg = "The research service returned an error (" ++ toString r.status ++ ").")) ∧
    handleResponse { r with body := none } = handleResponse { r with body := some (Json.obj []) } := by
  refine ⟨?_, ?_, rfl⟩
  · intro h
    simp [handleResponse, h]
  · intro h
    by_cases hstr : ∃ s, (r.body.getD (Json.obj [])).getField "error" = some (Json.str s)
    · obtain ⟨s, hs⟩ := hstr
      refine ⟨s, ?_, ?_, ?_⟩
      · simp [handleResponse, h, hs]
      · intro t ht
        rw [hs] at ht
        exact Json.str.inj (Option.some.inj ht)
      · intro hne
        exact absurd hs (hne s)
    · push_neg at hstr
      refine ⟨"The research service returned an error (" ++ toString r.status ++ ").",
        ?_, ?_, fun _ => rfl⟩
      · rcases hgf : (r.body.getD (Json.obj [])).getField "error" with _ | v
        · simp [handleResponse, h, hgf]
        · cases v <;> first
            | exact absurd hgf (hstr _)
            | simp [handleResponse, h, hgf]
      · intro s hs
        exact absurd hs (hstr s)

/-- Witness for C9 at a concrete non-ok response whose body has a string
error field. -/
theorem handleResponse_spec_witness :
    handleResponse ⟨false, 404, some (Json.obj [("error", Json.str "Bad")])⟩ =
      .error (.error "Bad" (some 404)) := by
  obtain ⟨msg, hmsg, hstr, -⟩ :=
    (handleResponse_spec ⟨false, 404, some (Json.obj [("error", Json.str "Bad")])⟩).2.1 rfl
  rw [hstr "Bad" rfl] at hmsg
  exact hmsg

/-- C10: with a non-positive maxAttempts the loop body never runs, so the
wrapped operation is never invoked and the initial undefined lastError is
thrown. -/
theorem withRetry_nonpositive_attempts {T : Type} (fn : Nat → Except JsError T)
    (config : RetryConfig) (u : Nat → ℚ) (h : config.maxAttempts ≤ 0) :
    (withRetry fn config u).result = .error none ∧ (withRetry fn config u).events = [] := by
  have h0 : config.maxAttempts.toNat = 0 := Int.toNat_eq_zero.mpr h
  have hdef : withRetry fn config u = withRetryGo fn config u 0 config.maxAttempts.toNat none := rfl
  rw [hdef, h0]
  exact ⟨rfl, rfl⟩

/-- Witness for C10 at a zero-attempt configuration. -/
theorem withRetry_nonpositive_attempts_witness :
    ((0 : Int) ≤ 0) ∧
    (withRetry (fun _ => .ok "value") ⟨0, 500, 5000, 2⟩ (fun _ => 1 / 2)).result = .error none ∧
    (withRetry (fun _ => .ok "value") ⟨0, 500, 5000, 2⟩ (fun _ => 1 / 2)).events = [] :=
  ⟨by decide, withRetry_nonpositive_attempts _ _ _ (by decide)⟩

/-- C1 (code-bug evidence): the errors handleResponse throws for a
rate-limited 429 response with no string error field and for a 503 response
with a server-provided error text are both classified terminal by
isRetryableError, because neither message contains the substring status. -/
theorem overload_responses_classified_terminal :
    handleResponse ⟨false, 429, some (Json.obj [])⟩ =
      .error (.error "The research service returned an error (429)." (some 429)) ∧
    isRetryableError (.error "The research service returned an error (429)." (some 429)) = false ∧
    handleResponse ⟨false, 503, some (Json.obj [("error", Json.str "Service Unavailable")])⟩ =
      .error (.error "Service Unavailable" (some 503)) ∧
    isRetryableError (.error "Service Unavailable" (some 503)) = false :=
  ⟨rfl, rfl, rfl, rfl⟩

/-- Research operation that always succeeds, for the C2 run. -/
def c2ResearchOp : Json → Except (Option JsError) DeepResearchResponse :=
  fun _ => .ok ⟨"step summary", []⟩

/-- A successful next-inquiry response whose nextSubject is explicitly
empty, for the C2 run. -/
def c2NextResponse : Response :=
  ⟨true, 200, some (.obj [("nextSubject", .str "")])⟩

/-- The next-inquiry operation of the C2 run: findNextInquiry over a
backend that always answers 200 with an empty nextSubject. -/
def c2NextOp : String → Except (Option JsError) Json :=
  fun _ => findNextInquiry (fun _ => .ok c2NextResponse) DEFAULT_RETRY_CONFIG (fun _ => 1 / 2)

/-- C2 (code-bug evidence): with two requested steps and a next-inquiry
backend that succeeds with an explicitly empty subject at step 1, the loop
of handleStartResearch ends with the thrown missing-next-inquiry error and
zero recorded steps, discarding the completed research of step 1; had
findNextInquiry delivered the empty subject as a value, the same loop would
have recorded step 1 and stopped without error through its own break
branch. -/
theorem empty_next_subject_aborts_with_error :
    handleStartResearch c2ResearchOp c2NextOp "A" 2 =
      ⟨[], some (some nextInquiryMissingError)⟩ ∧
    handleStartResearch c2ResearchOp (fun _ => .ok (Json.str "")) "A" 2 =
      ⟨[⟨1, .str "A", "step summary", [], some (.str "")⟩], none⟩ :=
  ⟨rfl, rfl⟩

/-- C8: whenever findNextInquiry returns rather than throwing, and the
backend payloads carry nextSubject fields that are absent or strings as the
endpoint declares, the returned value is a non-empty string; and any
successfully retrieved payload whose nextSubject field is falsy makes
findNextInquiry throw the missing-next-inquiry error instead. -/
theorem findNextInquiry_returns_nonempty (fetchOutcome : Nat → Except JsError Response)
    (config : RetryConfig) (u : Nat → ℚ)
    (htyped : ∀ i r, fetchOutcome i = .ok r → ∀ j, r.body = some j →
      j.getField "nextSubject" = none ∨ ∃ s, j.getField "nextSubject" = some (Json.str s)) :
    (∀ v, findNextInquiry fetchOutcome config u = .ok v → ∃ s, v = Json.str s ∧ s ≠ "") ∧
    (∀ data,
      (withRetry (fun i => (fetchOutcome i).bind handleResponse) config u).result = .ok data →
      jsFalsyOpt (data.getField "nextSubject") = true →
      findNextInquiry fetchOutcome config u = .error (some nextInquiryMissingError)) := by
  constructor
  · intro v hv
    unfold findNextInquiry at hv
    cases hres : (withRetry (fun i => (fetchOutcome i).bind handleResponse) config u).result with
    | error err => rw [hres] at hv; simp at hv
    | ok data =>
      rw [hres] at hv
      have hv2 : (match data.getField "nextSubject" with
          | none => (Except.error (some nextInquiryMissingError) : Except (Option JsError) Json)
          | some w => if w.falsy then .error (some nextInquiryMissingError) else .ok w) =
          .ok v := hv
      obtain ⟨i, hi⟩ := withRetryGo_ok _ config u config.maxAttempts.toNat 0 none data hres
      cases hfo : fetchOutcome i with
      | error e => rw [hfo] at hi; simp [Except.bind] at hi
      | ok r =>
        rw [hfo] at hi
        simp [Except.bind] at hi
        have hdata := handleResponse_ok_shape r data hi
        cases hb : r.body with
        | none =>
          rw [hb] at hdata
          simp at hdata
          rw [hdata] at hv2
          simp [Json.getField] at hv2
        | some j =>
          rw [hb] at hdata
          simp at hdata
          rcases htyped i r hfo j hb with hnone | ⟨s, hs⟩
          · rw [hdata, hnone] at hv2
            simp at hv2
          · rw [hdata, hs] at hv2
            by_cases hemp : s = ""
            · subst hemp
              simp [Json.falsy] at hv2
            · simp [Json.falsy, hemp] at hv2
              exact ⟨s, hv2.symm, hemp⟩
  · intro data hres hfal
    have hstep : findNextInquiry fetchOutcome config u =
        (match data.getField "nextSubject" with
         | none => (Except.error (some nextInquiryMissingError) : Except (Option JsError) Json)
         | some w => if w.falsy then .error (some nextInquiryMissingError) else .ok w) := by
      unfold findNextInquiry
      rw [hres]
    rw [hstep]
    cases hg : data.getField "nextSubject" with
    | none => rfl
    | some w =>
      rw [hg] at hfal
      simp [jsFalsyOpt] at hfal
      simp [hfal]

/-- Next-inquiry backend of the C8 witness: always 200 with a non-empty
subject. -/
def c8FetchOutcome : Nat → Except JsError Response :=
  fun _ => .ok ⟨true, 200, some (.obj [("nextSubject", .str "B")])⟩

/-- Witness for C8 at a backend that always answers with subject B. -/
theorem findNextInquiry_returns_nonempty_witness :
    findNextInquiry c8FetchOutcome DEFAULT_RETRY_CONFIG (fun _ => 1 / 2) = .ok (Json.str "B") ∧
    ∃ s, Json.str "B" = Json.str s ∧ s ≠ "" := by
  refine ⟨rfl, ?_⟩
  refine (findNextInquiry_returns_nonempty c8FetchOutcome DEFAULT_RETRY_CONFIG
    (fun _ => 1 / 2) ?_).1 (Json.str "B") rfl
  intro i r hr j hj
  have hr' : Response.mk true 200 (some (.obj [("nextSubject", .str "B")])) = r :=
    Except.ok.inj hr
  rw [← hr'] at hj
  have hj' : Json.obj [("nextSubject", Json.str "B")] = j := Option.some.inj hj
  rw [← hj']
  exact Or.inr ⟨"B", rfl⟩

/-- Each remaining loop iteration records at most one invocation. -/
theorem withRetryGo_invokes_le {T : Type} (fn : Nat → Except JsError T)
    (config : RetryConfig) (u : Nat → ℚ) :
    ∀ (fuel attempt : Nat) (lastError : Option JsError),
      countInvokes (withRetryGo fn config u attempt fuel lastError).events ≤ fuel := by
  intro fuel
  induction fuel with
  | zero =>
    intro attempt lastError
    simp [withRetryGo, countInvokes]
  | succ f ih =>
    intro attempt lastError
    rw [withRetryGo]
    cases hfn : fn attempt with
    | ok w => simp [countInvokes]
    | error e =>
      by_cases h1 : (attempt : Int) = config.maxAttempts - 1
      · simp [h1, countInvokes]
      · cases hre : isRetryableError e with
        | false => simp [h1, hre, countInvokes]
        | true =>
          simp [h1, hre, countInvokes]
          have := ih (attempt + 1) (some e)
          omega

/-- C4: a single withRetry call invokes the wrapped operation at most
maxAttempts times, for every policy with at least one attempt, every
operation and every sequence of outcomes. -/
theorem retry_ceiling {T : Type} (fn : Nat → Except JsError T) (config : RetryConfig)
    (u : Nat → ℚ) (h : 1 ≤ config.maxAttempts) :
    (countInvokes (withRetry fn config u).events : Int) ≤ config.maxAttempts := by
  have hle := withRetryGo_invokes_le fn config u config.maxAttempts.toNat 0 none
  have hdef : withRetry fn config u = withRetryGo fn config u 0 config.maxAttempts.toNat none := rfl
  rw [hdef]
  omega

/-- Witness for C4 at the default policy and an always-failing operation. -/
theorem retry_ceiling_witness :
    ((1 : Int) ≤ DEFAULT_RETRY_CONFIG.maxAttempts) ∧
    (countInvokes (withRetry (fun _ => (.error (.typeError "fetch failed") : Except JsError String))
        DEFAULT_RETRY_CONFIG (fun _ => 1 / 2)).events : Int) ≤ DEFAULT_RETRY_CONFIG.maxAttempts :=
  ⟨by decide, retry_ceiling _ _ _ (by decide)⟩

/-- When every remaining invocation fails with a retryable error, the loop
ends by throwing the error of its final invocation. -/
theorem withRetryGo_all_fail {T : Type} (fn : Nat → Except JsError T)
    (config : RetryConfig) (u : Nat → ℚ) :
    ∀ (fuel attempt : Nat) (lastError : Option JsError),
      1 ≤ fuel →
      (attempt : Int) + fuel = config.maxAttempts →
      (∀ j, j < fuel → ∃ e, fn (attempt + j) = .error e ∧ isRetryableError e = true) →
      ∃ e, fn (attempt + (fuel - 1)) = .error e ∧
        (withRetryGo fn config u attempt fuel lastError).result = .error (some e) := by
  intro fuel
  induction fuel with
  | zero =>
    intro attempt lastError h1
    exact absurd h1 (by omega)
  | succ f ih =>
    intro attempt lastError hf hsum hall
    obtain ⟨e0, he0, hre0⟩ := hall 0 (Nat.succ_pos f)
    rw [Nat.add_zero] at he0
    by_cases hlast : f = 0
    · subst hlast
      refine ⟨e0, by simpa using he0, ?_⟩
      have heq : (attempt : Int) = config.maxAttempts - 1 := by omega
      simp [withRetryGo, he0, heq]
    · have hf1 : 1 ≤ f := Nat.one_le_iff_ne_zero.mpr hlast
      have hni : ¬((attempt : Int) = config.maxAttempts - 1) := by omega
      have hall' : ∀ j, j < f → ∃ e, fn (attempt + 1 + j) = .error e ∧
          isRetryableError e = true := by
        intro j hj
        obtain ⟨e', he', hre'⟩ := hall (j + 1) (by omega)
        refine ⟨e', ?_, hre'⟩
        rw [show attempt + 1 + j = attempt + (j + 1) from by omega]
        exact he'
      obtain ⟨e, he, hgo⟩ := ih (attempt + 1) (some e0) hf1 (by omega) hall'
      refine ⟨e, ?_, ?_⟩
      · rw [show attempt + (f + 1 - 1) = attempt + 1 + (f - 1) from by omega]
        exact he
      · simp [withRetryGo, he0, hni, hre0]
        exact hgo

/-- C3: when every one of the maxAttempts invocations fails with a
retryable error, withRetry throws exactly the error of the final
invocation, not a synthetic one. -/
theorem exhausted_error_is_last {T : Type} (fn : Nat → Except JsError T)
    (config : RetryConfig) (u : Nat → ℚ)
    (h1 : 1 ≤ config.maxAttempts)
    (hall : ∀ j, j < config.maxAttempts.toNat →
      ∃ e, fn j = .error e ∧ isRetryableError e = true) :
    ∃ e, fn (config.maxAttempts.toNat - 1) = .error e ∧
      (withRetry fn config u).result = .error (some e) := by
  have hdef : withRetry fn config u = withRetryGo fn config u 0 config.maxAttempts.toNat none := rfl
  rw [hdef]
  have hfuel : 1 ≤ config.maxAttempts.toNat := by omega
  obtain ⟨e, he, hgo⟩ := withRetryGo_all_fail fn config u config.maxAttempts.toNat 0 none hfuel
    (by omega)
    (by
      intro j hj
      obtain ⟨e', he', hre'⟩ := hall j hj
      exact ⟨e', by simpa using he', hre'⟩)
  exact ⟨e, by simpa using he, hgo⟩

/-- Always-failing network operation, for the C3 witness. -/
def c3fn : Nat → Except JsError String :=
  fun _ => .error (.typeError "fetch failed")

/-- Witness for C3 at the default three-attempt policy. -/
theorem exhausted_error_is_last_witness :
    ∃ e, c3fn (DEFAULT_RETRY_CONFIG.maxAttempts.toNat - 1) = .error e ∧
      (withRetry c3fn DEFAULT_RETRY_CONFIG (fun _ => 1 / 2)).result = .error (some e) :=
  exhausted_error_is_last c3fn DEFAULT_RETRY_CONFIG (fun _ => 1 / 2) (by decide)
    (fun _ _ => ⟨.typeError "fetch failed", rfl, rfl⟩)

/-- C5: a terminal error on the first attempt of a policy with at least two
attempts is rethrown at once: exactly one invocation, no notification, no
sleep. -/
theorem terminal_short_circuit {T : Type} (fn : Nat → Except JsError T)
    (config : RetryConfig) (u : Nat → ℚ) (e : JsError)
    (h2 : 2 ≤ config.maxAttempts)
    (hfirst : fn 0 = .error e)
    (hterm : isRetryableError e = false) :
    (withRetry fn config u).result = .error (some e) ∧
    (withRetry fn config u).events = [REvent.invoke 0] := by
  obtain ⟨k, hk⟩ : ∃ k, config.maxAttempts.toNat = k + 1 := ⟨config.maxAttempts.toNat - 1, by omega⟩
  have hdef : withRetry fn config u = withRetryGo fn config u 0 config.maxAttempts.toNat none := rfl
  rw [hdef, hk]
  have hne : ¬(((0 : Nat) : Int) = config.maxAttempts - 1) := by omega
  constructor <;> simp [withRetryGo, hfirst, hne, hterm]

/-- Witness for C5 at the default policy and a client 400 error. -/
theorem terminal_short_circuit_witness :
    (withRetry (fun _ => (.error (.error "Invalid request body" (some 400)) : Except JsError String))
        DEFAULT_RETRY_CONFIG (fun _ => 1 / 2)).result =
      .error (some (.error "Invalid request body" (some 400))) ∧
    (withRetry (fun _ => (.error (.error "Invalid request body" (some 400)) : Except JsError String))
        DEFAULT_RETRY_CONFIG (fun _ => 1 / 2)).events = [REvent.invoke 0] :=
  terminal_short_circuit _ _ _ _ (by decide) rfl rfl

/-- C6: for a fixed policy with non-negative initial delay and multiplier
above one, the pre-jitter backoff base computed by calculateBackoffDelay is
non-decreasing in the attempt index and never exceeds maxDelayMs. -/
theorem backoff_base_monotone_capped (config : RetryConfig)
    (h0 : 0 ≤ config.initialDelayMs) (h1 : 1 < config.backoffMultiplier) (k : Nat) :
    cappedDelay k config ≤ cappedDelay (k + 1) config ∧
    cappedDelay k config ≤ config.maxDelayMs := by
  constructor
  · unfold cappedDelay
    apply min_le_min _ le_rfl
    apply mul_le_mul_of_nonneg_left _ h0
    exact pow_le_pow_right₀ h1.le (Nat.le_succ k)
  · exact min_le_right _ _

/-- Witness for C6 at the default policy and attempt index three. -/
theorem backoff_base_monotone_capped_witness :
    ((0 : ℚ) ≤ DEFAULT_RETRY_CONFIG.initialDelayMs) ∧
    ((1 : ℚ) < DEFAULT_RETRY_CONFIG.backoffMultiplier) ∧
    (cappedDelay 3 DEFAULT_RETRY_CONFIG ≤ cappedDelay 4 DEFAULT_RETRY_CONFIG ∧
      cappedDelay 3 DEFAULT_RETRY_CONFIG ≤ DEFAULT_RETRY_CONFIG.maxDelayMs) :=
  ⟨by decide, by decide, backoff_base_monotone_capped _ (by decide) (by decide) 3⟩

/-- Operation failing retryably on its first invocation only, for the C7
run. -/
def c7fn : Nat → Except JsError String :=
  fun n => if n = 0 then .error (.typeError "fetch failed") else .ok "done"

/-- Random draw of the C7 run. -/
def c7u : Nat → ℚ := fun _ => 1 / 2

/-- C7 (counterexample): in a concrete run with one retryable failure, the
notification the engine emits before sleeping carries the attempt number
and the error with an undefined delay argument; it is not the
three-argument notification carrying the computed delay that the claim
asserts. -/
theorem retry_notify_without_delay_counterexample :
    (withRetry c7fn DEFAULT_RETRY_CONFIG c7u).events =
      [REvent.invoke 0,
       REvent.notify 1 (.typeError "fetch failed") none,
       REvent.sleep (calculateBackoffDelay 0 DEFAULT_RETRY_CONFIG (c7u 0)),
       REvent.invoke 1] ∧
    REvent.notify 1 (.typeError "fetch failed") none ≠
      REvent.notify 1 (.typeError "fetch failed")
        (some (calculateBackoffDelay 0 DEFAULT_RETRY_CONFIG (c7u 0))) := by
  exact ⟨rfl, by simp⟩

/-- Whenever the run reaches a retryable failure on a non-final attempt,
its trace contains the two-argument notification of that attempt
immediately followed by the sleep of the computed backoff delay. -/
theorem withRetryGo_notify_block {T : Type} (fn : Nat → Except JsError T)
    (config : RetryConfig) (u : Nat → ℚ) :
    ∀ (k attempt fuel : Nat) (lastError : Option JsError) (e : JsError),
      (attempt : Int) + fuel = config.maxAttempts →
      (∀ j, j < k → ∃ ej, fn (attempt + j) = .error ej ∧ isRetryableError ej = true) →
      fn (attempt + k) = .error e →
      isRetryableError e = true →
      ((attempt : Int) + k) + 1 < config.maxAttempts →
      ∃ pre post, (withRetryGo fn config u attempt fuel lastError).events =
        pre ++ REvent.notify (attempt + k + 1) e none ::
          REvent.sleep (calculateBackoffDelay (attempt + k) config (u (attempt + k))) :: post := by
  intro k
  induction k with
  | zero =>
    intro attempt fuel lastError e hsum hreach hfail hretry hlt
    rw [Nat.add_zero] at hfail
    obtain ⟨f, hf⟩ : ∃ f, fuel = f + 1 := ⟨fuel - 1, by omega⟩
    subst hf
    have hne : ¬((attempt : Int) = config.maxAttempts - 1) := by omega
    refine ⟨[REvent.invoke attempt], (withRetryGo fn config u (attempt + 1) f (some e)).events, ?_⟩
    simp [withRetryGo, hfail, hne, hretry]
  | succ k ih =>
    intro attempt fuel lastError e hsum hreach hfail hretry hlt
    obtain ⟨e0, he0, hre0⟩ := hreach 0 (Nat.succ_pos k)
    rw [Nat.add_zero] at he0
    obtain ⟨f, hf⟩ : ∃ f, fuel = f + 1 := ⟨fuel - 1, by omega⟩
    subst hf
    have hne : ¬((attempt : Int) = config.maxAttempts - 1) := by omega
    have hreach' : ∀ j, j < k → ∃ ej, fn (attempt + 1 + j) = .error ej ∧
        isRetryableError ej = true := by
      intro j hj
      obtain ⟨ej, hej, hrj⟩ := hreach (j + 1) (by omega)
      refine ⟨ej, ?_, hrj⟩
      rw [show attempt + 1 + j = attempt + (j + 1) from by omega]
      exact hej
    have hfail' : fn (attempt + 1 + k) = .error e := by
      rw [show attempt + 1 + k = attempt + (k + 1) from by omega]
      exact hfail
    obtain ⟨pre, post, hev⟩ := ih (attempt + 1) f (some e0) e (by omega) hreach' hfail' hretry
      (by omega)
    rw [show attempt + 1 + k = attempt + (k + 1) from by omega] at hev
    refine ⟨REvent.invoke attempt ::
            REvent.notify (attempt + 1) e0 none ::
            REvent.sleep (calculateBackoffDelay attempt config (u attempt)) :: pre, post, ?_⟩
    simp [withRetryGo, he0, hne, hre0]
    exact hev

/-- C7 amended: for every retryable failure on a non-final reached attempt,
the engine notifies the observer with two arguments, the attempt number and
the error (the delay is not among the arguments passed), and then sleeps
for the computed backoff delay. -/
theorem retry_notify_two_args_before_sleep {T : Type} (fn : Nat → Except JsError T)
    (config : RetryConfig) (u : Nat → ℚ) (a : Nat) (e : JsError)
    (hreach : ∀ j, j < a → ∃ ej, fn j = .error ej ∧ isRetryableError ej = true)
    (hfail : fn a = .error e)
    (hretry : isRetryableError e = true)
    (hnonfinal : (a : Int) + 1 < config.maxAttempts) :
    ∃ pre post, (withRetry fn config u).events =
      pre ++ REvent.notify (a + 1) e none ::
        REvent.sleep (calculateBackoffDelay a config (u a)) :: post := by
  have hdef : withRetry fn config u = withRetryGo fn config u 0 config.maxAttempts.toNat none := rfl
  rw [hdef]
  have h := withRetryGo_notify_block fn config u a 0 config.maxAttempts.toNat none e
    (by omega) (by intro j hj; simpa using hreach j hj) (by simpa using hfail) hretry (by omega)
  simpa using h

/-- Witness for the amended C7 at the concrete C7 run. -/
theorem retry_notify_two_args_before_sleep_witness :
    ∃ pre post, (withRetry c7fn DEFAULT_RETRY_CONFIG c7u).events =
      pre ++ REvent.notify (0 + 1) (.typeError "fetch failed") none ::
        REvent.sleep (calculateBackoffDelay 0 DEFAULT_RETRY_CONFIG (c7u 0)) :: post :=
  retry_notify_two_args_before_sleep c7fn DEFAULT_RETRY_CONFIG c7u 0 (.typeError "fetch failed")
    (fun j hj => absurd hj (Nat.not_lt_zero j)) rfl rfl (by decide)

end LoopApp
